import Mathlib

/-!
Verification of the comparable-discovery, scoring and rule-inference core of a
real-estate data aggregation service (NYC PLUTO / rolling-sales / tax-benefit
registries).

The TypeScript source is shallowly embedded:
* JS strings are `List Char` (`Str`); `String.prototype.includes` is `occursIn`,
  `toUpperCase` is `upper`, `Array.prototype.join(' ')` is `joinSp`,
  `split(/\s+/)` is `splitWs`.
* JS numbers holding registry counts (units, square feet, years, areas) are `Nat`
  (the registries' schemas are non-negative integers; `parseInt(x) || 0`
  normalises absent values to 0); dollar amounts are `Rat`; `Math.round` is
  Mathlib's `round : Rat -> Int` (both equal `floor (x + 1/2)`).
* JS `a || b` on numbers (0 is falsy) is `jsOr`; nullable numbers are `Option`.
* Remote fetches are modelled by passing the registry's response (or a
  `FetchOutcome` where the code distinguishes failure) as an argument; the
  JSON-field decoding of rows is elided as transport.
-/

namespace CRE

/-- JS strings, modelled as lists of characters. -/
abbrev Str := List Char

/-- `s.toUpperCase()`. -/
def upper (s : Str) : Str := s.map Char.toUpper

/-- `needle` occurs at the start of the second argument
(the prefix test underlying `String.prototype.includes`). -/
def leadsWith : Str → Str → Bool
  | [], _ => true
  | _ :: _, [] => false
  | a :: as, b :: bs => (a = b) && leadsWith as bs

/-- `hay.includes(needle)`: `needle` occurs somewhere in `hay`. -/
def occursIn (needle : Str) : Str → Bool
  | [] => needle.isEmpty
  | b :: rest => leadsWith needle (b :: rest) || occursIn needle rest

/-- `fields.join(' ')`. -/
def joinSp : List Str → Str
  | [] => []
  | [f] => f
  | f :: g :: rest => f ++ ' ' :: joinSp (g :: rest)

/-- A nonempty needle that does not contain `c` cannot lead a string
whose `c`-separated head is too short: leading is decided by the part
before the separator. -/
theorem leadsWith_append_sep (t a b : Str) (c : Char) (hc : c ∉ t) :
    leadsWith t (a ++ c :: b) = leadsWith t a := by
  induction t generalizing a with
  | nil => rfl
  | cons x ts ih =>
    cases a with
    | nil =>
      simp only [List.nil_append, leadsWith]
      have hxc : x ≠ c := fun h => hc (h ▸ List.mem_cons_self x ts)
      simp [hxc]
    | cons y as =>
      have h2 : c ∉ ts := fun h => hc (List.mem_cons_of_mem x h)
      simp only [List.cons_append, leadsWith, List.append_eq]
      rw [ih as h2]

theorem occursIn_nil_of_ne (t : Str) (ht : t ≠ []) : occursIn t [] = false := by
  cases t with
  | nil => exact absurd rfl ht
  | cons x ts => rfl

/-- Searching for a separator-free, nonempty needle in `a ++ sep :: b`
searches `a` and `b` independently. -/
theorem occursIn_append_sep (t a b : Str) (c : Char) (ht : t ≠ []) (hc : c ∉ t) :
    occursIn t (a ++ c :: b) = (occursIn t a || occursIn t b) := by
  induction a with
  | nil =>
    cases t with
    | nil => exact absurd rfl ht
    | cons x ts =>
      have hxc : x ≠ c := fun h => hc (h ▸ List.mem_cons_self x ts)
      simp [occursIn, leadsWith, hxc]
  | cons y as ih =>
    have hl : leadsWith t (y :: (as ++ c :: b)) = leadsWith t (y :: as) :=
      leadsWith_append_sep t (y :: as) b c hc
    simp only [List.cons_append, occursIn, List.append_eq]
    rw [hl, ih, Bool.or_assoc]

/-- Searching a space-joined field list for a space-free nonempty needle is
searching each field. -/
theorem occursIn_joinSp (t : Str) (l : List Str) (ht : t ≠ []) (hsp : ' ' ∉ t) :
    occursIn t (joinSp l) = l.any (occursIn t) := by
  induction l with
  | nil => simp [joinSp, occursIn_nil_of_ne t ht]
  | cons f rest ih =>
    cases rest with
    | nil => simp [joinSp]
    | cons g rs =>
      simp only [joinSp, List.any_cons]
      rw [occursIn_append_sep t f (joinSp (g :: rs)) ' ' ht hsp, ih]
      simp [List.any_cons]

/-! ## SimilarityScorer (search-comps module, `calculateSimilarityScore`) -/

/-- JS `a || b` for registry counts: 0 is falsy. -/
def jsOr (a b : ℕ) : ℕ := if a = 0 then b else a

/-- JS `a || b` for nullable years: `null` and `0` are falsy. -/
def jsOrYear (a b : Option ℕ) : Option ℕ := if a.getD 0 = 0 then b else a

/-- Subject property attributes consumed by the scorer (the subject
record's structurally-typed slice used by `calculateSimilarityScore`). -/
structure SubjectAttrs where
  building_class : Str
  units : ℕ
  units_total : ℕ
  year_built : Option ℕ
  building_area : ℕ
deriving DecidableEq

/-- Candidate attributes passed to `calculateSimilarityScore` by the
enrichment loop. -/
structure CompAttrs where
  building_class : Str
  units : ℕ
  year_built : Option ℕ
  sqft : ℕ
deriving DecidableEq

/-- `if (isSameNeighborhood) score += 30; else if (isAdjacentNeighborhood) score += 15;` -/
def neighborhoodPoints (isSame isAdjacent : Bool) : ℤ :=
  if isSame then 30 else if isAdjacent then 15 else 0

/-- Building class: exact match 25 points, `charAt(0)` category match 15 points.
JS `"".charAt(0)` is `""`, modelled by `take 1`. -/
def classPoints (s c : Str) : ℤ :=
  if s = c then 25 else if s.take 1 = c.take 1 then 15 else 0

/-- `Math.round(min(a,b)/max(a,b) * w)`, guarded by `a > 0 && b > 0`. -/
def closenessPoints (a b w : ℕ) : ℤ :=
  if 0 < a ∧ 0 < b then round (((min a b : ℚ) / (max a b : ℚ)) * (w : ℚ)) else 0

/-- Year-built tiers, guarded by JS truthiness of both years
(`null` and `0` contribute nothing). -/
def yearPoints (sy cy : Option ℕ) : ℤ :=
  match sy, cy with
  | some s, some c =>
    if 0 < s ∧ 0 < c then
      let d := (s : ℤ) - (c : ℤ)
      if d.natAbs ≤ 5 then 15
      else if d.natAbs ≤ 10 then 12
      else if d.natAbs ≤ 20 then 8
      else if d.natAbs ≤ 30 then 4
      else 0
    else 0
  | _, _ => 0

/-- `calculateSimilarityScore` (search-comps module): the five additive
components. The unit-count component uses
`subject.units_total || subject.units || 0` for the subject side. -/
def calculateSimilarityScore (subject : SubjectAttrs) (comp : CompAttrs)
    (isSameNeighborhood isAdjacentNeighborhood : Bool) : ℤ :=
  neighborhoodPoints isSameNeighborhood isAdjacentNeighborhood
  + classPoints subject.building_class comp.building_class
  + closenessPoints (jsOr subject.units_total subject.units) comp.units 20
  + yearPoints subject.year_built comp.year_built
  + closenessPoints subject.building_area comp.sqft 10

theorem round_le_round (x y : ℚ) (h : x ≤ y) : round x ≤ round y := by
  rw [round_eq, round_eq]
  exact Int.floor_mono (by linarith)

theorem closenessPoints_bounds (a b w : ℕ) :
    0 ≤ closenessPoints a b w ∧ closenessPoints a b w ≤ (w : ℤ) := by
  unfold closenessPoints
  split
  · rename_i hab
    obtain ⟨ha, hb⟩ := hab
    set q : ℚ := ((min a b : ℚ) / (max a b : ℚ)) * (w : ℚ) with hq
    have hmaxpos : (0 : ℚ) < (max a b : ℚ) := by
      have : 0 < max a b := lt_max_of_lt_left ha
      exact_mod_cast this
    have hq0 : (0 : ℚ) ≤ q := by
      apply mul_nonneg
      · apply div_nonneg
        · exact_mod_cast Nat.zero_le _
        · exact le_of_lt hmaxpos
      · exact_mod_cast Nat.zero_le _
    have hratle : ((min a b : ℚ) / (max a b : ℚ)) ≤ 1 := by
      rw [div_le_one hmaxpos]
      exact_mod_cast min_le_max
    have hqw : q ≤ (w : ℚ) := by
      calc q ≤ 1 * (w : ℚ) := by
              apply mul_le_mul_of_nonneg_right hratle
              exact_mod_cast Nat.zero_le _
        _ = (w : ℚ) := one_mul _
    constructor
    · have := round_le_round 0 q hq0
      simpa using this
    · have := round_le_round q (w : ℚ) hqw
      simpa [round_natCast] using this
  · exact ⟨le_refl 0, Int.ofNat_nonneg w⟩

theorem neighborhoodPoints_bounds (s a : Bool) :
    0 ≤ neighborhoodPoints s a ∧ neighborhoodPoints s a ≤ 30 := by
  unfold neighborhoodPoints
  split <;> [skip; split] <;> omega

theorem classPoints_bounds (s c : Str) :
    0 ≤ classPoints s c ∧ classPoints s c ≤ 25 := by
  unfold classPoints
  split <;> [skip; split] <;> omega

theorem yearPoints_bounds (sy cy : Option ℕ) :
    0 ≤ yearPoints sy cy ∧ yearPoints sy cy ≤ 15 := by
  unfold yearPoints
  rcases sy with _ | s <;> rcases cy with _ | c <;> simp only
  · omega
  · omega
  · omega
  · split
    · split <;> [skip; split] <;> [skip; skip; split] <;> [skip; skip; skip; split] <;> omega
    · omega

/-- C1: the similarity score is in [0,100], is the sum of five independent
components bounded by 30 (area), 25 (class), 20 (unit count), 15 (year built)
and 10 (size), and the unit, year and size components contribute 0 when their
inputs are zero or unknown. -/
theorem similarity_score_bounded (subject : SubjectAttrs) (comp : CompAttrs)
    (isSame isAdjacent : Bool) (a b : ℕ) (oy : Option ℕ) :
    (0 ≤ calculateSimilarityScore subject comp isSame isAdjacent
      ∧ calculateSimilarityScore subject comp isSame isAdjacent ≤ 100)
    ∧ calculateSimilarityScore subject comp isSame isAdjacent
        = neighborhoodPoints isSame isAdjacent
          + classPoints subject.building_class comp.building_class
          + closenessPoints (jsOr subject.units_total subject.units) comp.units 20
          + yearPoints subject.year_built comp.year_built
          + closenessPoints subject.building_area comp.sqft 10
    ∧ (0 ≤ neighborhoodPoints isSame isAdjacent ∧ neighborhoodPoints isSame isAdjacent ≤ 30)
    ∧ (0 ≤ classPoints subject.building_class comp.building_class
        ∧ classPoints subject.building_class comp.building_class ≤ 25)
    ∧ (0 ≤ closenessPoints a b 20 ∧ closenessPoints a b 20 ≤ 20)
    ∧ (0 ≤ yearPoints oy comp.year_built ∧ yearPoints oy comp.year_built ≤ 15)
    ∧ (0 ≤ closenessPoints a b 10 ∧ closenessPoints a b 10 ≤ 10)
    ∧ closenessPoints a 0 20 = 0 ∧ closenessPoints 0 b 20 = 0
    ∧ yearPoints none oy = 0 ∧ yearPoints oy none = 0
    ∧ yearPoints (some 0) oy = 0 ∧ yearPoints oy (some 0) = 0
    ∧ closenessPoints a 0 10 = 0 ∧ closenessPoints 0 b 10 = 0 := by
  have hn := neighborhoodPoints_bounds isSame isAdjacent
  have hc := classPoints_bounds subject.building_class comp.building_class
  have hu := closenessPoints_bounds (jsOr subject.units_total subject.units) comp.units 20
  have hy := yearPoints_bounds subject.year_built comp.year_built
  have hs := closenessPoints_bounds subject.building_area comp.sqft 10
  refine ⟨⟨?_, ?_⟩, rfl, hn, hc, closenessPoints_bounds a b 20,
    yearPoints_bounds oy comp.year_built, closenessPoints_bounds a b 10,
    ?_, ?_, ?_, ?_, ?_, ?_, ?_, ?_⟩
  · unfold calculateSimilarityScore; omega
  · unfold calculateSimilarityScore
    have h20 : closenessPoints (jsOr subject.units_total subject.units) comp.units 20 ≤ 20 := hu.2
    have h10 : closenessPoints subject.building_area comp.sqft 10 ≤ 10 := hs.2
    omega
  · simp [closenessPoints]
  · simp [closenessPoints]
  · simp [yearPoints]
  · rcases oy with _ | y <;> simp [yearPoints]
  · rcases oy with _ | y <;> simp [yearPoints]
  · rcases oy with _ | y <;> simp [yearPoints]
  · simp [closenessPoints]
  · simp [closenessPoints]

/-! ## RentRegulationInferenceEngine (`pluto.ts`, `calculateRentInfo`) -/

inductive Confidence where
  | high
  | medium
  | low
deriving DecidableEq

structure RentInfo where
  likely_stabilized : Bool
  stabilization_reasons : List Str
  confidence : Confidence
  notes : List Str
deriving DecidableEq

/-- Input slice of `calculateRentInfo`; the optional `has_421a` / `has_j51`
flags default to `false` (JS `undefined` is falsy). -/
structure RentParams where
  year_built : Option ℕ
  units : ℕ
  building_class : Str
  owner : Str
  has_421a : Bool
  has_j51 : Bool
deriving DecidableEq

def natStr (n : ℕ) : Str := (Nat.repr n).toList

def nychaNote : Str :=
  "NYCHA public housing - subject to federal regulations, not rent stabilization".toList

def condoNote : Str :=
  "Condo/co-op building - individual units typically not rent stabilized unless sponsor-owned rentals".toList

def reasonPre1974 (y u : ℕ) : Str :=
  "Pre-1974 building (".toList ++ natStr y ++ ") with ".toList ++ natStr u ++ " units".toList

def pre1947Note : Str :=
  "Pre-1947 building may have some rent-controlled units (tenants since before July 1971)".toList

def reason421a : Str :=
  "Receives 421a tax exemption - units must be rent stabilized during benefit period".toList

def note421a : Str :=
  "421a stabilization expires when tax benefit ends - check benefit end date".toList

def reasonJ51 : Str :=
  "Receives J-51 tax abatement - units must be rent stabilized during benefit period".toList

def noteJ51 : Str :=
  "J-51 stabilization may extend beyond benefit period under certain conditions".toList

def genNote1 : Str :=
  "Individual units may be deregulated through high-rent vacancy, owner occupancy, or substantial rehab".toList

def genNote2 : Str :=
  "Verify with DHCR or NYC tax bills for definitive unit counts".toList

def post1974Note (y : ℕ) : Str :=
  "Built ".toList ++ natStr y ++ " - after 1974 cutoff. May be stabilized if receiving tax benefits (421a/J-51)".toList

def below6Note (u : ℕ) : Str :=
  "Only ".toList ++ natStr u ++ " units - below 6-unit threshold for mandatory stabilization. May be stabilized if receiving tax benefits".toList

def uncertainNote : Str :=
  "Unable to determine year built - stabilization status uncertain".toList

/-- The public-housing-authority owner test: the uppercased owner name
contains one of the three NYCHA patterns. -/
def isNYCHAOwner (owner : Str) : Bool :=
  occursIn "NYCHA".toList (upper owner)
  || occursIn "NEW YORK CITY HOUSING AUTHORITY".toList (upper owner)
  || occursIn "NYC HOUSING AUTHORITY".toList (upper owner)

/-- `calculateRentInfo` (`pluto.ts`): ordered rule engine for
rent-stabilization likelihood. Sequential mutation of
`likely_stabilized` / `confidence` / `reasons` / `notes` is modelled by the
let-chain, preserving rule order. JS truthiness of `year_built`
(`null` and `0` falsy) is modelled by `year_built.getD 0`. -/
def calculateRentInfo (p : RentParams) : RentInfo :=
  if isNYCHAOwner p.owner then
    { likely_stabilized := false
      stabilization_reasons := []
      confidence := .high
      notes := [nychaNote] }
  else
    let isCondoCoop : Bool := decide ((upper p.building_class).take 1 = ['R'])
    let notes0 : List Str := if isCondoCoop then [condoNote] else []
    let y := p.year_built.getD 0
    let rule1 : Bool :=
      decide (0 < y) && decide (y < 1974) && decide (6 ≤ p.units) && !isCondoCoop
    let conf1 : Confidence := if rule1 then .medium else .low
    let reasons1 : List Str := if rule1 then [reasonPre1974 y p.units] else []
    let notes1 := notes0 ++ (if rule1 && decide (y < 1947) then [pre1947Note] else [])
    let conf2 : Confidence := if p.has_421a then .high else conf1
    let reasons2 := reasons1 ++ (if p.has_421a then [reason421a] else [])
    let notes2 := notes1 ++ (if p.has_421a then [note421a] else [])
    let likely : Bool := rule1 || p.has_421a || p.has_j51
    let conf3 : Confidence := if p.has_j51 then .high else conf2
    let reasons3 := reasons2 ++ (if p.has_j51 then [reasonJ51] else [])
    let notes3 := notes2 ++ (if p.has_j51 then [noteJ51] else [])
    let notes4 := notes3 ++
      (if likely then [genNote1, genNote2]
       else if decide (6 ≤ p.units) && decide (0 < y) && decide (1974 ≤ y) then
         [post1974Note y]
       else if decide (0 < p.units) && decide (p.units < 6) then [below6Note p.units]
       else [])
    let conf4 : Confidence :=
      if decide (y = 0) && decide (p.units < 6) then .low else conf3
    let notes5 := notes4 ++
      (if decide (y = 0) && decide (p.units < 6) then [uncertainNote] else [])
    { likely_stabilized := likely
      stabilization_reasons := reasons3
      confidence := conf4
      notes := notes5 }

/-- C5: an owner matching a public-housing-authority pattern is terminal:
the result is exactly `likely_stabilized = false`, `confidence = high`,
no reasons, and the single NYCHA note, whatever the other attributes. -/
theorem nycha_rule_terminal (p : RentParams) (h : isNYCHAOwner p.owner = true) :
    calculateRentInfo p =
      { likely_stabilized := false
        stabilization_reasons := []
        confidence := .high
        notes := [nychaNote] } := by
  unfold calculateRentInfo
  rw [h]
  simp

theorem nycha_rule_terminal_witness :
    calculateRentInfo
      { year_built := some 1920, units := 100
        building_class := "D1".toList
        owner := "NYC HOUSING AUTHORITY".toList
        has_421a := true, has_j51 := true } =
      { likely_stabilized := false
        stabilization_reasons := []
        confidence := .high
        notes := [nychaNote] } :=
  nycha_rule_terminal _ (by decide)

/-- C3 counterexample: year built unknown, 3 units, 421a flag set.
Rule 2 sets `likely_stabilized = true` with confidence `high`, but the
unknown-year rule still forces the returned confidence to `low`, although
the outcome is the stabilized one. The claim asserts the downgrade does
not apply when `likely_stabilized` is `true`. -/
theorem unknown_year_downgrade_hits_stabilized :
    (calculateRentInfo
      { year_built := none, units := 3
        building_class := "C1".toList
        owner := "SMITH REALTY LLC".toList
        has_421a := true, has_j51 := false }).likely_stabilized = true
    ∧ (calculateRentInfo
      { year_built := none, units := 3
        building_class := "C1".toList
        owner := "SMITH REALTY LLC".toList
        has_421a := true, has_j51 := false }).confidence = .low := by
  constructor <;> decide

/-- C3 amended: on the non-NYCHA path, whenever year built is unknown
(null or 0) and the unit count is below 6, the returned confidence is `low`
regardless of the stabilization outcome; in particular the `high`
confidence set by the 421a rule is overridden. -/
theorem unknown_year_downgrade_unconditional (p : RentParams)
    (hn : isNYCHAOwner p.owner = false)
    (hy : p.year_built.getD 0 = 0) (hu : p.units < 6) :
    (calculateRentInfo p).confidence = .low := by
  unfold calculateRentInfo
  rw [hn]
  simp only [Bool.false_eq_true, if_false, hy]
  simp [hu]

theorem unknown_year_downgrade_unconditional_witness :
    (calculateRentInfo
      { year_built := none, units := 2
        building_class := "C1".toList
        owner := "ACME LLC".toList
        has_421a := true, has_j51 := false }).confidence = .low :=
  unknown_year_downgrade_unconditional _ (by decide) (by decide) (by decide)

/-- C10: `likely_stabilized` is `true` exactly when the reasons list is
non-empty: each of the three stabilizing rules appends exactly one reason,
reasons are appended nowhere else, and the terminal NYCHA branch returns
`false` with no reasons. -/
theorem likely_iff_reasons_nonempty (p : RentParams) :
    (calculateRentInfo p).likely_stabilized = true
      ↔ (calculateRentInfo p).stabilization_reasons ≠ [] := by
  unfold calculateRentInfo
  by_cases hn : isNYCHAOwner p.owner = true
  · rw [hn]
    simp
  · rw [Bool.not_eq_true] at hn
    rw [hn]
    simp only [Bool.false_eq_true, if_false]
    cases hr : (decide (0 < p.year_built.getD 0) && decide (p.year_built.getD 0 < 1974)
        && decide (6 ≤ p.units) && !decide ((upper p.building_class).take 1 = ['R'])) <;>
      cases ha : p.has_421a <;> cases hj : p.has_j51 <;>
      simp [hr, ha, hj]

/-! ## TaxBenefitAggregator (tax-benefits module) -/

/-- Outcome of one remote registry fetch: a successful response with rows,
a non-OK HTTP response, or a thrown network error. -/
inductive FetchOutcome (α : Type) where
  | ok (rows : List α)
  | httpError (status : ℕ)
  | netError
deriving DecidableEq

def FetchOutcome.failed {α : Type} : FetchOutcome α → Bool
  | .ok _ => false
  | .httpError _ => true
  | .netError => true

structure TaxExemption where
  bbl : Str
  tax_year : Str
  exemption_code : Str
  exemption_description : Str
  exempt_value : ℚ
  percent_exempt : Option ℚ
deriving DecidableEq

structure TaxAbatement where
  bbl : Str
  tax_year : Str
  abatement_code : Str
  abatement_description : Str
  abatement_amount : ℚ
  benefit_start_date : Option Str
  benefit_end_date : Option Str
deriving DecidableEq

structure TaxBenefits where
  bbl : Str
  exemptions : List TaxExemption
  abatements : List TaxAbatement
  has_421a : Bool
  has_j51 : Bool
  has_icap : Bool
  has_star : Bool
  total_exemption_value : ℚ
  total_abatement_amount : ℚ
deriving DecidableEq

/-- `queryExemptions`: a non-OK response or a thrown error degrades to `[]`;
the JSON row decoding of a successful response is elided as transport. -/
def queryExemptions : FetchOutcome TaxExemption → List TaxExemption
  | .ok rows => rows
  | .httpError _ => []
  | .netError => []

/-- `queryAbatements`: same degradation policy as `queryExemptions`. -/
def queryAbatements : FetchOutcome TaxAbatement → List TaxAbatement
  | .ok rows => rows
  | .httpError _ => []
  | .netError => []

/-- `str.padStart(n, c)`. -/
def padStart (s : Str) (n : ℕ) (c : Char) : Str :=
  List.replicate (n - s.length) c ++ s

/-- `formatBBL`: 1-digit borough + 5-digit block + 4-digit lot. -/
def formatBBL (boroughCode block lot : Str) : Str :=
  padStart boroughCode 1 '0' ++ padStart block 5 '0' ++ padStart lot 4 '0'

/-- The `allCodes` concatenation of `getTaxBenefitsByBBL`: uppercased
exemption codes, abatement codes, exemption descriptions, abatement
descriptions, joined with spaces. -/
def allCodesOf (exemptions : List TaxExemption) (abatements : List TaxAbatement) : Str :=
  joinSp (exemptions.map (fun e => upper e.exemption_code)
    ++ abatements.map (fun a => upper a.abatement_code)
    ++ exemptions.map (fun e => upper e.exemption_description)
    ++ abatements.map (fun a => upper a.abatement_description))

/-- `getTaxBenefitsByBBL`: per-source degradation, program-token flags over
`allCodes`, and totals summed over all returned rows. -/
def getTaxBenefitsByBBL (boroughCode block lot : Str)
    (exFetch : FetchOutcome TaxExemption) (abFetch : FetchOutcome TaxAbatement) :
    TaxBenefits :=
  let bbl := formatBBL boroughCode block lot
  let exemptions := queryExemptions exFetch
  let abatements := queryAbatements abFetch
  let allCodes := allCodesOf exemptions abatements
  { bbl := bbl
    exemptions := exemptions
    abatements := abatements
    has_421a := occursIn "421A".toList allCodes || occursIn "421-A".toList allCodes
    has_j51 := occursIn "J51".toList allCodes || occursIn "J-51".toList allCodes
    has_icap := occursIn "ICAP".toList allCodes || occursIn "ICIP".toList allCodes
    has_star := occursIn "STAR".toList allCodes
    total_exemption_value := exemptions.foldl (fun sum e => sum + e.exempt_value) 0
    total_abatement_amount := abatements.foldl (fun sum a => sum + a.abatement_amount) 0 }

/-- C6: neither registry failure propagates: a failed exemptions fetch
yields `exemptions = []` with the abatements side unaffected, and
symmetrically; and in the scenario where the exemptions fetch fails while
the abatements fetch returns a single row carrying a 421A token, the result
is `exemptions = []`, that one abatement, `has_421a = true`,
`total_exemption_value = 0` and `total_abatement_amount` equal to the
row's amount. -/
theorem tax_benefit_failure_isolation
    (bc blk lt : Str) (exFetch : FetchOutcome TaxExemption)
    (abFetch : FetchOutcome TaxAbatement) (r : TaxAbatement) :
    (exFetch.failed = true →
      (getTaxBenefitsByBBL bc blk lt exFetch abFetch).exemptions = []
      ∧ (getTaxBenefitsByBBL bc blk lt exFetch abFetch).abatements
          = queryAbatements abFetch)
    ∧ (abFetch.failed = true →
      (getTaxBenefitsByBBL bc blk lt exFetch abFetch).abatements = []
      ∧ (getTaxBenefitsByBBL bc blk lt exFetch abFetch).exemptions
          = queryExemptions exFetch)
    ∧ (exFetch.failed = true →
      (occursIn "421A".toList (upper r.abatement_code)
        || occursIn "421-A".toList (upper r.abatement_code)
        || occursIn "421A".toList (upper r.abatement_description)
        || occursIn "421-A".toList (upper r.abatement_description)) = true →
      (getTaxBenefitsByBBL bc blk lt exFetch (.ok [r])).exemptions = []
      ∧ (getTaxBenefitsByBBL bc blk lt exFetch (.ok [r])).abatements = [r]
      ∧ (getTaxBenefitsByBBL bc blk lt exFetch (.ok [r])).has_421a = true
      ∧ (getTaxBenefitsByBBL bc blk lt exFetch (.ok [r])).total_exemption_value = 0
      ∧ (getTaxBenefitsByBBL bc blk lt exFetch (.ok [r])).total_abatement_amount
          = r.abatement_amount) := by
  have hfail : ∀ f : FetchOutcome TaxExemption, f.failed = true → queryExemptions f = [] := by
    intro f hf
    cases f with
    | ok rows => exact absurd hf (by simp [FetchOutcome.failed])
    | httpError s => rfl
    | netError => rfl
  have hfail2 : ∀ f : FetchOutcome TaxAbatement, f.failed = true → queryAbatements f = [] := by
    intro f hf
    cases f with
    | ok rows => exact absurd hf (by simp [FetchOutcome.failed])
    | httpError s => rfl
    | netError => rfl
  refine ⟨fun hf => ⟨?_, rfl⟩, fun hf => ⟨?_, rfl⟩, fun hf htok => ?_⟩
  · simp [getTaxBenefitsByBBL, hfail exFetch hf]
  · simp [getTaxBenefitsByBBL, hfail2 abFetch hf]
  · have hex : queryExemptions exFetch = [] := hfail exFetch hf
    refine ⟨by simp [getTaxBenefitsByBBL, hex], by simp [getTaxBenefitsByBBL, queryAbatements],
      ?_, by simp [getTaxBenefitsByBBL, hex], by simp [getTaxBenefitsByBBL, queryAbatements]⟩
    have hall : allCodesOf (queryExemptions exFetch) (queryAbatements (.ok [r]))
        = upper r.abatement_code ++ ' ' :: upper r.abatement_description := by
      simp [allCodesOf, hex, queryAbatements, joinSp]
    simp only [getTaxBenefitsByBBL, hall]
    have h1 := occursIn_append_sep "421A".toList (upper r.abatement_code)
      (upper r.abatement_description) ' ' (by decide) (by decide)
    have h2 := occursIn_append_sep "421-A".toList (upper r.abatement_code)
      (upper r.abatement_description) ' ' (by decide) (by decide)
    rw [h1, h2]
    cases hc1 : occursIn "421A".toList (upper r.abatement_code) <;>
      cases hc2 : occursIn "421-A".toList (upper r.abatement_code) <;>
      cases hd1 : occursIn "421A".toList (upper r.abatement_description) <;>
      cases hd2 : occursIn "421-A".toList (upper r.abatement_description) <;>
      simp_all

/-- A concrete 421A abatement row used to exercise the failure-isolation
scenario. -/
def abRow421a : TaxAbatement :=
  { bbl := "1001230045".toList, tax_year := "2024".toList,
    abatement_code := "421A".toList,
    abatement_description := "NEW CONSTRUCTION".toList,
    abatement_amount := 1500,
    benefit_start_date := none, benefit_end_date := none }

theorem tax_benefit_failure_isolation_witness :
    (getTaxBenefitsByBBL "1".toList "123".toList "45".toList
        FetchOutcome.netError (.ok [abRow421a])).exemptions = []
    ∧ (getTaxBenefitsByBBL "1".toList "123".toList "45".toList
        FetchOutcome.netError (.ok [abRow421a])).has_421a = true
    ∧ (getTaxBenefitsByBBL "1".toList "123".toList "45".toList
        FetchOutcome.netError (.ok [abRow421a])).total_abatement_amount = 1500 := by
  have h := (tax_benefit_failure_isolation "1".toList "123".toList "45".toList
    FetchOutcome.netError (.ok []) abRow421a).2.2 (by decide) (by decide)
  exact ⟨h.1, h.2.2.1, h.2.2.2.2.trans (by decide)⟩

/-- The raw (not yet uppercased) code and description fields of a benefit
result, in the order the aggregator concatenates them. -/
def rawBenefitFields (exemptions : List TaxExemption)
    (abatements : List TaxAbatement) : List Str :=
  exemptions.map (fun e => e.exemption_code)
    ++ abatements.map (fun a => a.abatement_code)
    ++ exemptions.map (fun e => e.exemption_description)
    ++ abatements.map (fun a => a.abatement_description)

/-- Specification reading of a program flag: a case-insensitive substring
search finds one of the program's spelling-variant tokens in some returned
code or description field. -/
def flagSpec (exemptions : List TaxExemption) (abatements : List TaxAbatement)
    (tokens : List Str) : Prop :=
  ∃ f ∈ rawBenefitFields exemptions abatements,
    ∃ t ∈ tokens, occursIn t (upper f) = true

theorem allCodesOf_eq_joinSp_map (exemptions : List TaxExemption)
    (abatements : List TaxAbatement) :
    allCodesOf exemptions abatements
      = joinSp ((rawBenefitFields exemptions abatements).map upper) := by
  simp only [allCodesOf, rawBenefitFields, List.map_append, List.map_map]
  rfl

theorem occursIn_allCodes_iff (exemptions : List TaxExemption)
    (abatements : List TaxAbatement) (t : Str) (ht : t ≠ []) (hsp : ' ' ∉ t) :
    occursIn t (allCodesOf exemptions abatements) = true
      ↔ ∃ f ∈ rawBenefitFields exemptions abatements, occursIn t (upper f) = true := by
  rw [allCodesOf_eq_joinSp_map,
    occursIn_joinSp t ((rawBenefitFields exemptions abatements).map upper) ht hsp,
    List.any_map, List.any_eq_true]
  simp [Function.comp]

/-- C7: each of the four program flags is true exactly when a
case-insensitive substring search over the returned code and description
fields finds one of that program's spelling-variant tokens
(`421A`/`421-A`, `J51`/`J-51`, `ICAP`/`ICIP`; for STAR the two spellings
coincide in the single token `STAR`). -/
theorem benefit_flags_token_search (bc blk lt : Str)
    (exFetch : FetchOutcome TaxExemption) (abFetch : FetchOutcome TaxAbatement) :
    ((getTaxBenefitsByBBL bc blk lt exFetch abFetch).has_421a = true
      ↔ flagSpec (queryExemptions exFetch) (queryAbatements abFetch)
          ["421A".toList, "421-A".toList])
    ∧ ((getTaxBenefitsByBBL bc blk lt exFetch abFetch).has_j51 = true
      ↔ flagSpec (queryExemptions exFetch) (queryAbatements abFetch)
          ["J51".toList, "J-51".toList])
    ∧ ((getTaxBenefitsByBBL bc blk lt exFetch abFetch).has_icap = true
      ↔ flagSpec (queryExemptions exFetch) (queryAbatements abFetch)
          ["ICAP".toList, "ICIP".toList])
    ∧ ((getTaxBenefitsByBBL bc blk lt exFetch abFetch).has_star = true
      ↔ flagSpec (queryExemptions exFetch) (queryAbatements abFetch)
          ["STAR".toList]) := by
  set ex := queryExemptions exFetch
  set ab := queryAbatements abFetch
  have h421 := occursIn_allCodes_iff ex ab "421A".toList (by decide) (by decide)
  have h421d := occursIn_allCodes_iff ex ab "421-A".toList (by decide) (by decide)
  have hj51 := occursIn_allCodes_iff ex ab "J51".toList (by decide) (by decide)
  have hj51d := occursIn_allCodes_iff ex ab "J-51".toList (by decide) (by decide)
  have hicap := occursIn_allCodes_iff ex ab "ICAP".toList (by decide) (by decide)
  have hicip := occursIn_allCodes_iff ex ab "ICIP".toList (by decide) (by decide)
  have hstar := occursIn_allCodes_iff ex ab "STAR".toList (by decide) (by decide)
  refine ⟨?_, ?_, ?_, ?_⟩ <;>
    simp only [getTaxBenefitsByBBL, flagSpec, Bool.or_eq_true, h421, h421d, hj51,
      hj51d, hicap, hicip, hstar] <;>
    simp only [List.mem_cons, List.mem_singleton] <;>
    constructor
  · rintro (⟨f, hf, hocc⟩ | ⟨f, hf, hocc⟩)
    · exact ⟨f, hf, "421A".toList, by simp, hocc⟩
    · exact ⟨f, hf, "421-A".toList, by simp, hocc⟩
  · rintro ⟨f, hf, t, ht, hocc⟩
    rcases ht with rfl | rfl | h
    · exact Or.inl ⟨f, hf, hocc⟩
    · exact Or.inr ⟨f, hf, hocc⟩
    · exact absurd h (List.not_mem_nil t)
  · rintro (⟨f, hf, hocc⟩ | ⟨f, hf, hocc⟩)
    · exact ⟨f, hf, "J51".toList, by simp, hocc⟩
    · exact ⟨f, hf, "J-51".toList, by simp, hocc⟩
  · rintro ⟨f, hf, t, ht, hocc⟩
    rcases ht with rfl | rfl | h
    · exact Or.inl ⟨f, hf, hocc⟩
    · exact Or.inr ⟨f, hf, hocc⟩
    · exact absurd h (List.not_mem_nil t)
  · rintro (⟨f, hf, hocc⟩ | ⟨f, hf, hocc⟩)
    · exact ⟨f, hf, "ICAP".toList, by simp, hocc⟩
    · exact ⟨f, hf, "ICIP".toList, by simp, hocc⟩
  · rintro ⟨f, hf, t, ht, hocc⟩
    rcases ht with rfl | rfl | h
    · exact Or.inl ⟨f, hf, hocc⟩
    · exact Or.inr ⟨f, hf, hocc⟩
    · exact absurd h (List.not_mem_nil t)
  · rintro ⟨f, hf, hocc⟩
    exact ⟨f, hf, "STAR".toList, by simp, hocc⟩
  · rintro ⟨f, hf, t, ht, hocc⟩
    rcases ht with rfl | h
    · exact ⟨f, hf, hocc⟩
    · exact absurd h (List.not_mem_nil t)

/-! ## CandidateSetBuilder / EnrichmentJoiner / RankingAggregator
(search-comps module, `searchComps` steps 5 and 6) -/

/-- A rolling-sales row (the fields `searchComps` reads). -/
structure NYCSale where
  borough : Str
  block : Str
  lot : Str
  address : Str
  apartment_number : Str
  sale_price : ℚ
  sale_date : Str
  building_class : Str
  neighborhood : Str
  units : ℕ
  sqft : ℕ
  year_built : Option ℕ
  zola_url : Str
deriving DecidableEq

/-- The slice of an enriching PLUTO parcel record the comp loop reads. -/
structure PlutoRecord where
  units_total : ℕ
  year_built : Option ℕ
deriving DecidableEq

/-- The subject property as used by `searchComps` (key fields plus the
attributes fed to the scorer). -/
structure SubjectProperty where
  borough : Str
  block : Str
  lot : Str
  building_class : Str
  units : ℕ
  units_total : ℕ
  year_built : Option ℕ
  building_area : ℕ
deriving DecidableEq

def SubjectProperty.attrs (s : SubjectProperty) : SubjectAttrs :=
  { building_class := s.building_class, units := s.units,
    units_total := s.units_total, year_built := s.year_built,
    building_area := s.building_area }

/-- One enriched comparable (`CompResult`). -/
structure CompResult where
  address : Str
  sale_price : ℚ
  sale_date : Str
  neighborhood : Str
  building_class : Str
  units_total : ℕ
  sqft : ℕ
  year_built : Option ℕ
  price_per_unit : Option ℤ
  price_per_sqft : Option ℤ
  zola_url : Str
  is_same_neighborhood : Bool
  is_adjacent_neighborhood : Bool
  similarity_score : ℤ
deriving DecidableEq

/-- The per-sale enrichment and scoring step of the comp loop. `plutoData`
is the per-item parcel fetch result (`null` both when the registry has no
row and when the fetch threw); `compat` is the neighborhood-adjacency
collaborator `areNeighborhoodsCompatible`. -/
def mkComp (subject : SubjectProperty) (subjectNeighborhood : Str)
    (compat : Str → Str → Bool) (plutoData : Option PlutoRecord)
    (sale : NYCSale) : CompResult :=
  let pUnits := (plutoData.map PlutoRecord.units_total).getD 0
  let units_total := jsOr pUnits sale.units
  let sqft := sale.sqft
  let pYear : Option ℕ := match plutoData with
    | some p => p.year_built
    | none => none
  let year_built := jsOrYear pYear sale.year_built
  let price_per_unit : Option ℤ :=
    if 0 < units_total then some (round (sale.sale_price / (units_total : ℚ))) else none
  let price_per_sqft : Option ℤ :=
    if 0 < sqft then some (round (sale.sale_price / (sqft : ℚ))) else none
  let is_same : Bool :=
    occursIn (upper subjectNeighborhood) (upper sale.neighborhood)
    || occursIn (upper sale.neighborhood) (upper subjectNeighborhood)
  let is_adjacent : Bool :=
    !is_same && compat subjectNeighborhood sale.neighborhood
  { address := sale.address
    sale_price := sale.sale_price
    sale_date := sale.sale_date
    neighborhood := sale.neighborhood
    building_class := sale.building_class
    units_total := units_total
    sqft := sqft
    year_built := year_built
    price_per_unit := price_per_unit
    price_per_sqft := price_per_sqft
    zola_url := sale.zola_url
    is_same_neighborhood := is_same
    is_adjacent_neighborhood := is_adjacent
    similarity_score := calculateSimilarityScore subject.attrs
      { building_class := sale.building_class, units := units_total,
        year_built := year_built, sqft := sqft } is_same is_adjacent }

/-- The self-exclusion test of the comp loop:
`sale.block === subject.block && sale.lot === subject.lot`. -/
def isSubjectSale (subject : SubjectProperty) (sale : NYCSale) : Bool :=
  decide (sale.block = subject.block) && decide (sale.lot = subject.lot)

/-- The comp-building loop over the sales response (`continue` on the
subject's own key, enrich and score the rest). -/
def buildComps (subject : SubjectProperty) (nbhd : Str)
    (compat : Str → Str → Bool) (pluto : NYCSale → Option PlutoRecord) :
    List NYCSale → List CompResult
  | [] => []
  | sale :: rest =>
    if isSubjectSale subject sale then buildComps subject nbhd compat pluto rest
    else mkComp subject nbhd compat (pluto sale) sale
      :: buildComps subject nbhd compat pluto rest

/-- The sales rows that contribute a comp: everything except the subject's
own key. -/
def salesContributing (subject : SubjectProperty) (sales : List NYCSale) :
    List NYCSale :=
  sales.filter (fun s => !isSubjectSale subject s)

/-- Stable insertion of a comp into a score-descending list: the new comp
goes after strictly higher scores and before equal or lower ones, as JS's
stable `Array.prototype.sort` with comparator `b.score - a.score` does for
an element preceding its equals. -/
def insertDesc (c : CompResult) : List CompResult → List CompResult
  | [] => [c]
  | d :: ds =>
    if c.similarity_score < d.similarity_score then d :: insertDesc c ds
    else c :: d :: ds

/-- `comps.sort((a, b) => b.similarity_score - a.similarity_score)` with
JS's guaranteed-stable sort, modelled as stable insertion sort. -/
def sortDesc : List CompResult → List CompResult
  | [] => []
  | c :: cs => insertDesc c (sortDesc cs)

/-- `Math.min(input.limit || 10, 50)`: an absent or zero (falsy) requested
count becomes 10, then capped at 50. -/
def effectiveLimit (limitInput : Option ℕ) : ℕ :=
  min (jsOr (limitInput.getD 0) 10) 50

/-- Steps 5 and 6 of `searchComps`: build, score, rank and truncate the
comps from a fixed sales-registry response. -/
def searchCompsRanked (subject : SubjectProperty) (nbhd : Str)
    (compat : Str → Str → Bool) (pluto : NYCSale → Option PlutoRecord)
    (sales : List NYCSale) (limitInput : Option ℕ) : List CompResult :=
  (sortDesc (buildComps subject nbhd compat pluto sales)).take
    (effectiveLimit limitInput)

theorem mem_insertDesc (x c : CompResult) (l : List CompResult) :
    x ∈ insertDesc c l ↔ x = c ∨ x ∈ l := by
  induction l with
  | nil => simp [insertDesc]
  | cons d ds ih =>
    unfold insertDesc
    split
    · simp only [List.mem_cons, ih]
      tauto
    · simp only [List.mem_cons]

theorem mem_sortDesc (x : CompResult) (l : List CompResult) :
    x ∈ sortDesc l ↔ x ∈ l := by
  induction l with
  | nil => simp [sortDesc]
  | cons c cs ih =>
    simp [sortDesc, mem_insertDesc, ih]

theorem insertDesc_pairwise (c : CompResult) (l : List CompResult)
    (h : List.Pairwise (fun a b => b.similarity_score ≤ a.similarity_score) l) :
    List.Pairwise (fun a b => b.similarity_score ≤ a.similarity_score)
      (insertDesc c l) := by
  induction l with
  | nil => simp [insertDesc]
  | cons d ds ih =>
    rcases List.pairwise_cons.mp h with ⟨hd, hds⟩
    unfold insertDesc
    split
    · rename_i hlt
      refine List.pairwise_cons.mpr ⟨?_, ih hds⟩
      intro x hx
      rcases (mem_insertDesc x c ds).mp hx with rfl | hxds
      · exact le_of_lt hlt
      · exact hd x hxds
    · rename_i hge
      refine List.pairwise_cons.mpr ⟨?_, h⟩
      intro x hx
      rcases List.mem_cons.mp hx with rfl | hxds
      · exact le_of_not_lt hge
      · exact le_trans (hd x hxds) (le_of_not_lt hge)

theorem sortDesc_pairwise (l : List CompResult) :
    List.Pairwise (fun a b => b.similarity_score ≤ a.similarity_score)
      (sortDesc l) := by
  induction l with
  | nil => simp [sortDesc]
  | cons c cs ih => exact insertDesc_pairwise c (sortDesc cs) ih

theorem insertDesc_filter_score (c : CompResult) (l : List CompResult) (k : ℤ) :
    (insertDesc c l).filter (fun d => decide (d.similarity_score = k))
      = if c.similarity_score = k then
          c :: l.filter (fun d => decide (d.similarity_score = k))
        else l.filter (fun d => decide (d.similarity_score = k)) := by
  induction l with
  | nil =>
    by_cases hck : c.similarity_score = k <;>
      simp [insertDesc, List.filter_cons, hck]
  | cons d ds ih =>
    unfold insertDesc
    split
    · rename_i hlt
      by_cases hck : c.similarity_score = k
      · have hd' : ¬(d.similarity_score = k) := by omega
        simp [List.filter_cons, hd', ih, hck]
      · simp [List.filter_cons, ih, hck]
    · by_cases hck : c.similarity_score = k <;>
        simp [List.filter_cons, hck]

theorem sortDesc_filter_score (l : List CompResult) (k : ℤ) :
    (sortDesc l).filter (fun d => decide (d.similarity_score = k))
      = l.filter (fun d => decide (d.similarity_score = k)) := by
  induction l with
  | nil => simp [sortDesc]
  | cons c cs ih =>
    simp only [sortDesc, insertDesc_filter_score, ih, List.filter_cons]
    split <;> rename_i h <;> simp_all

theorem buildComps_eq_filter_map (subject : SubjectProperty) (nbhd : Str)
    (compat : Str → Str → Bool) (pluto : NYCSale → Option PlutoRecord)
    (sales : List NYCSale) :
    buildComps subject nbhd compat pluto sales
      = (salesContributing subject sales).map
          (fun s => mkComp subject nbhd compat (pluto s) s) := by
  induction sales with
  | nil => rfl
  | cons s rest ih =>
    unfold buildComps salesContributing
    by_cases h : isSubjectSale subject s
    · simp only [h, if_true, List.filter_cons, Bool.not_true]
      simpa [salesContributing] using ih
    · rw [Bool.not_eq_true] at h
      simp only [h, Bool.false_eq_true, if_false, List.filter_cons, Bool.not_false,
        List.map_cons]
      rw [ih]
      rfl

/-- C2: the comps returned by `searchComps` come exactly from the sales
rows that survive the self-exclusion test, and no surviving row has the
subject's full (borough, block, lot) key: the comparable list never
contains the subject itself. -/
theorem comps_exclude_subject (subject : SubjectProperty) (nbhd : Str)
    (compat : Str → Str → Bool) (pluto : NYCSale → Option PlutoRecord)
    (sales : List NYCSale) (limitInput : Option ℕ) :
    searchCompsRanked subject nbhd compat pluto sales limitInput
      = (sortDesc ((salesContributing subject sales).map
          (fun s => mkComp subject nbhd compat (pluto s) s))).take
            (effectiveLimit limitInput)
    ∧ (salesContributing subject sales).all
        (fun s => !(decide (s.borough = subject.borough)
          && decide (s.block = subject.block)
          && decide (s.lot = subject.lot))) = true := by
  constructor
  · unfold searchCompsRanked
    rw [buildComps_eq_filter_map]
  · rw [List.all_eq_true]
    intro s hs
    have hmem := List.mem_filter.mp hs
    have hns : isSubjectSale subject s = false := by
      have := hmem.2
      cases h : isSubjectSale subject s
      · rfl
      · rw [h] at this
        exact absurd this (by decide)
    unfold isSubjectSale at hns
    cases hb : decide (s.block = subject.block) <;>
      cases hl : decide (s.lot = subject.lot) <;>
      simp_all

/-- C8 counterexample inputs: a subject, one candidate sale on a different
block, no enrichment, no adjacency. -/
def subjW : SubjectProperty :=
  { borough := "1".toList, block := "100".toList, lot := "1".toList,
    building_class := "D4".toList, units := 10, units_total := 10,
    year_built := some 1920, building_area := 10000 }

def saleW : NYCSale :=
  { borough := "1".toList, block := "200".toList, lot := "2".toList,
    address := "1 MAIN STREET".toList, apartment_number := [],
    sale_price := 200, sale_date := "2024-01-01".toList,
    building_class := "D4".toList, neighborhood := "EAST VILLAGE".toList,
    units := 2, sqft := 100, year_built := some 1918, zola_url := [] }

def nbW : Str := "EAST VILLAGE".toList

def compatW : Str → Str → Bool := fun _ _ => false

def plutoW : NYCSale → Option PlutoRecord := fun _ => none

/-- C8 counterexample: a requested count of 0 is falsy in
`Math.min(input.limit || 10, 50)` and becomes the default 10, so with one
candidate the result has 1 entry, not `min(0, 50) = 0` as the claim
requires. -/
theorem saleW_not_subject : isSubjectSale subjW saleW = false := by
  decide

theorem searchCompsRanked_singleton (limitInput : Option ℕ)
    (hpos : 0 < effectiveLimit limitInput) :
    searchCompsRanked subjW nbW compatW plutoW [saleW] limitInput
      = [mkComp subjW nbW compatW (plutoW saleW) saleW] := by
  unfold searchCompsRanked buildComps sortDesc insertDesc
  rw [saleW_not_subject]
  simp only [Bool.false_eq_true, if_false]
  cases hn : effectiveLimit limitInput with
  | zero => omega
  | succ n => simp [List.take]

theorem zero_limit_uses_default :
    (searchCompsRanked subjW nbW compatW plutoW [saleW] (some 0)).length = 1
    ∧ (searchCompsRanked subjW nbW compatW plutoW [saleW] (some 0)).length
        ≠ min 0 50 := by
  rw [searchCompsRanked_singleton (some 0) (by decide)]
  exact ⟨rfl, by decide⟩

/-- C8 amended: the comps are sorted by descending similarity score with a
stable tie-break (for every score, the equal-score candidates are the same
sublist in the same order as enumerated) and truncated to the effective
limit, which is `min(requested, 50)` for a positive requested count but the
default 10 when the count is unspecified or 0 (JS falsiness). -/
theorem comps_ranking_stable_truncated (subject : SubjectProperty) (nbhd : Str)
    (compat : Str → Str → Bool) (pluto : NYCSale → Option PlutoRecord)
    (sales : List NYCSale) (limitInput : Option ℕ) :
    searchCompsRanked subject nbhd compat pluto sales limitInput
      = (sortDesc (buildComps subject nbhd compat pluto sales)).take
          (effectiveLimit limitInput)
    ∧ List.Pairwise (fun a b => b.similarity_score ≤ a.similarity_score)
        (sortDesc (buildComps subject nbhd compat pluto sales))
    ∧ (∀ k : ℤ,
        (sortDesc (buildComps subject nbhd compat pluto sales)).filter
            (fun c => decide (c.similarity_score = k))
          = (buildComps subject nbhd compat pluto sales).filter
              (fun c => decide (c.similarity_score = k)))
    ∧ effectiveLimit none = 10
    ∧ effectiveLimit (some 0) = 10
    ∧ ∀ n : ℕ, effectiveLimit (some (n + 1)) = min (n + 1) 50 := by
  refine ⟨rfl, sortDesc_pairwise _, fun k => sortDesc_filter_score _ k,
    by decide, by decide, fun n => ?_⟩
  simp [effectiveLimit, jsOr]

/-- C9: for every comp produced by `searchComps`, `price_per_unit` is
`null` exactly when the resolved total unit count is 0 and
`price_per_sqft` is `null` exactly when the square footage is 0: an
unknown divisor always yields `null`, never a 0 or NaN rate. -/
theorem comp_rates_null_iff_zero_divisor (subject : SubjectProperty)
    (nbhd : Str) (compat : Str → Str → Bool)
    (pluto : NYCSale → Option PlutoRecord) (sales : List NYCSale)
    (limitInput : Option ℕ) :
    ∀ c ∈ searchCompsRanked subject nbhd compat pluto sales limitInput,
      (c.price_per_unit = none ↔ c.units_total = 0)
      ∧ (c.price_per_sqft = none ↔ c.sqft = 0) := by
  intro c hc
  have hc1 : c ∈ sortDesc (buildComps subject nbhd compat pluto sales) :=
    List.mem_of_mem_take hc
  have hc2 : c ∈ buildComps subject nbhd compat pluto sales :=
    (mem_sortDesc c _).mp hc1
  rw [buildComps_eq_filter_map] at hc2
  rcases List.mem_map.mp hc2 with ⟨s, hs, rfl⟩
  constructor
  · by_cases hu : 0 < jsOr ((((pluto s).map PlutoRecord.units_total).getD 0)) s.units <;>
      simp [mkComp, hu] <;> omega
  · by_cases hq : 0 < s.sqft <;> simp [mkComp, hq] <;> omega

theorem comp_rates_null_iff_zero_divisor_witness :
    ((mkComp subjW nbW compatW (plutoW saleW) saleW).price_per_unit = none
      ↔ (mkComp subjW nbW compatW (plutoW saleW) saleW).units_total = 0)
    ∧ ((mkComp subjW nbW compatW (plutoW saleW) saleW).price_per_sqft = none
      ↔ (mkComp subjW nbW compatW (plutoW saleW) saleW).sqft = 0) :=
  comp_rates_null_iff_zero_divisor subjW nbW compatW plutoW [saleW] none
    (mkComp subjW nbW compatW (plutoW saleW) saleW)
    (by rw [searchCompsRanked_singleton none (by decide)]
        exact List.mem_singleton_self _)

/-! ## ParcelResolver (`pluto.ts`, `getPropertyByAddress`)

The resolver builds start-anchored `LIKE` filters over the parcel registry.
The filter is modelled structurally (pattern plus optional borough
constraint), matching the spec's view of the registry interface as a typed
filter expression; address normalization is the out-of-core text-cleanup
collaborator `normalizeAddress`, passed as a parameter. -/

/-- A resolver query: `upper(address) LIKE 'pattern%'`, optionally
`AND borocode='boro'`. -/
inductive AddrQuery where
  | anchored (pattern : Str) (boro : Option Str)
deriving DecidableEq

/-- JS `\s` on the whitespace characters arising in addresses. -/
def isJsSpace (c : Char) : Bool :=
  c = ' ' || c = '\t' || c = '\n' || c = '\r'

/-- `address.match(/^(\d+)/)`: the maximal leading digit run, if any. -/
def extractStreetNumber (address : Str) : Option Str :=
  let ds := address.takeWhile Char.isDigit
  if ds.isEmpty then none else some ds

/-- `normalizeAddress(address).match(/^\d+\s+(.+)$/)`: requires a leading
digit run, then at least one whitespace character; the capture is the rest
after the greedy whitespace run, or (by regex backtracking, when nothing
follows the run) the run's final whitespace character. -/
def extractStreetName (normalize : Str → Str) (address : Str) : Option Str :=
  let n := normalize address
  let ds := n.takeWhile Char.isDigit
  let rest := n.dropWhile Char.isDigit
  let sp := rest.takeWhile isJsSpace
  let tail := rest.dropWhile isJsSpace
  if ds.isEmpty then none
  else if sp.isEmpty then none
  else if !tail.isEmpty then some tail
  else if 2 ≤ sp.length then
    match sp.getLast? with
    | some c => some [c]
    | none => none
  else none

/-- State machine for `split(/\s+/)`: `inWord = true` is mid-word with the
reversed accumulator, `inWord = false` is just after a separator run. -/
def splitWsAux (inWord : Bool) (acc : Str) : Str → List Str
  | [] => if inWord then [acc.reverse] else [[]]
  | c :: cs =>
    if inWord then
      if isJsSpace c then acc.reverse :: splitWsAux false [] cs
      else splitWsAux true (c :: acc) cs
    else
      if isJsSpace c then splitWsAux false [] cs
      else splitWsAux true [c] cs

/-- `name.split(/\s+/)` (JS semantics: leading or trailing separators
contribute empty pieces). -/
def splitWs (s : Str) : List Str := splitWsAux true [] s

/-- `streetName.split(/\s+/).slice(0, 2).join(' ')`. -/
def firstTwoWords (name : Str) : Str := joinSp ((splitWs name).take 2)

/-- `getPropertyByAddress` (`pluto.ts`): query 1 is the normalized address
anchored at the start with the borough constraint; query 2 (only if query 1
is empty and the address parses) is the street number plus the first two
street-name tokens, still with the borough constraint; query 3 (only if
still empty and a borough was supplied) repeats query 1 without the borough
constraint. Returns the first row of the first non-empty response. The
resolver never inspects row contents, so the row type is a parameter. -/
def getPropertyByAddress {α : Type} (registry : AddrQuery → List α)
    (normalize : Str → Str) (address : Str) (boroughCode : Option Str) :
    Option α :=
  let normalized := normalize address
  let streetNumber := extractStreetNumber address
  let streetName := extractStreetName normalize address
  let results1 := registry (.anchored normalized boroughCode)
  let results2 :=
    if results1.isEmpty then
      match streetNumber, streetName with
      | some num, some name =>
          registry (.anchored (num ++ ' ' :: firstTwoWords name) boroughCode)
      | _, _ => results1
    else results1
  let results3 :=
    if results2.isEmpty then
      match boroughCode with
      | some _ => registry (.anchored normalized none)
      | none => results2
    else results2
  results3.head?

/-- The resolver as claim C4 describes it: after an empty first query the
next query drops the area constraint, and only if that is still empty is
the street-number secondary query issued. -/
def getPropertyByAddressClaimOrder {α : Type} (registry : AddrQuery → List α)
    (normalize : Str → Str) (address : Str) (boroughCode : Option Str) :
    Option α :=
  let normalized := normalize address
  let streetNumber := extractStreetNumber address
  let streetName := extractStreetName normalize address
  let results1 := registry (.anchored normalized boroughCode)
  let results2 :=
    if results1.isEmpty then
      match boroughCode with
      | some _ => registry (.anchored normalized none)
      | none => results1
    else results1
  let results3 :=
    if results2.isEmpty then
      match streetNumber, streetName with
      | some num, some name =>
          registry (.anchored (num ++ ' ' :: firstTwoWords name) none)
      | _, _ => results2
    else results2
  results3.head?

def addrC : Str := "522 EAST 5 STREET".toList

def bcC : Str := "1".toList

/-- A registry response making the street-number query and the
borough-free query both non-empty with distinct rows. -/
def registryC : AddrQuery → List ℕ := fun q =>
  if q = AddrQuery.anchored "522 EAST 5".toList (some bcC) then [2]
  else if q = AddrQuery.anchored addrC none then [3]
  else []

/-- C4 counterexample: with the first query empty, the code issues the
street-number query (borough kept) before the borough-free retry, so it
returns row 2; under the claim's order the borough-free retry comes first
and returns row 3. -/
theorem address_fallback_order_counterexample :
    getPropertyByAddress registryC id addrC (some bcC) = some 2
    ∧ getPropertyByAddressClaimOrder registryC id addrC (some bcC) = some 3
    ∧ (some 2 : Option ℕ) ≠ some 3 := by
  refine ⟨by decide, by decide, by decide⟩

/-- C4 amended: the fallback order is (1) normalized address with the area
constraint; (2) if empty and the address parses into street number and
street name, the street-number query still WITH the area constraint;
(3) only if still empty and an area code was supplied, the normalized
query without the area constraint; the result is the first row of the
first non-empty response, else null. -/
theorem address_fallback_order (α : Type) (registry : AddrQuery → List α)
    (normalize : Str → Str) (address : Str) :
    (∀ bc p rest,
      registry (.anchored (normalize address) bc) = p :: rest →
      getPropertyByAddress registry normalize address bc = some p)
    ∧ (∀ bc num name p rest,
      registry (.anchored (normalize address) bc) = [] →
      extractStreetNumber address = some num →
      extractStreetName normalize address = some name →
      registry (.anchored (num ++ ' ' :: firstTwoWords name) bc) = p :: rest →
      getPropertyByAddress registry normalize address bc = some p)
    ∧ (∀ b p rest,
      registry (.anchored (normalize address) (some b)) = [] →
      (∀ num name, extractStreetNumber address = some num →
        extractStreetName normalize address = some name →
        registry (.anchored (num ++ ' ' :: firstTwoWords name) (some b)) = []) →
      registry (.anchored (normalize address) none) = p :: rest →
      getPropertyByAddress registry normalize address (some b) = some p)
    ∧ (∀ bc,
      registry (.anchored (normalize address) bc) = [] →
      (∀ num name, extractStreetNumber address = some num →
        extractStreetName normalize address = some name →
        registry (.anchored (num ++ ' ' :: firstTwoWords name) bc) = []) →
      (∀ b, bc = some b → registry (.anchored (normalize address) none) = []) →
      getPropertyByAddress registry normalize address bc = none) := by
  refine ⟨?_, ?_, ?_, ?_⟩
  · intro bc p rest h1
    simp [getPropertyByAddress, h1]
  · intro bc num name p rest h1 hnum hname h2
    simp [getPropertyByAddress, h1, hnum, hname, h2]
  · intro b p rest h1 h2 h3
    unfold getPropertyByAddress
    simp only [h1, List.isEmpty_nil, if_true]
    cases hnum : extractStreetNumber address with
    | none => simp [h3]
    | some num =>
      cases hname : extractStreetName normalize address with
      | none => simp [h3]
      | some name => simp [h2 num name hnum hname, h3]
  · intro bc h1 h2 h3
    unfold getPropertyByAddress
    simp only [h1, List.isEmpty_nil, if_true]
    cases hnum : extractStreetNumber address with
    | none =>
      cases bc with
      | none => simp
      | some b => simp [h3 b rfl]
    | some num =>
      cases hname : extractStreetName normalize address with
      | none =>
        cases bc with
        | none => simp
        | some b => simp [h3 b rfl]
      | some name =>
        cases bc with
        | none => simp [h2 num name hnum hname]
        | some b => simp [h2 num name hnum hname, h3 b rfl]

theorem address_fallback_order_witness :
    getPropertyByAddress registryC id addrC (some bcC) = some 2 :=
  (address_fallback_order ℕ registryC id addrC).2.1 (some bcC)
    "522".toList "EAST 5 STREET".toList 2 []
    (by decide) (by decide) (by decide) (by decide)

end CRE
